import Mathlib

/-!
Verification of the course-management REST views in
`leverxcourses/main/views.py`: ownership scoping of querysets, the CRUD
contract of the generic list/detail endpoints, and the per-view class
attributes (serializers, permissions, parsers).

The view module is embedded directly.  The relational model
(`models.py`), the serializers (`serializers.py`) and the behaviour of
the generic mixins are not part of the view module; where a definition
comes from the specification instead of the view source its doc comment
says so.
-/

namespace LeverX

/-- Modelled from the spec: `models.py` is not under `src/`.  A Course
has a many-to-many `users` membership and is identified by `id`. -/
structure Course where
  id : Nat
  name : String
  users : List Nat
deriving Repr, DecidableEq

/-- Modelled from the spec: a Lecture belongs to one Course (the
`course` foreign key) and may carry an uploaded file attachment. -/
structure Lecture where
  id : Nat
  name : String
  course : Nat
deriving Repr, DecidableEq

/-- Modelled from the spec: a LectureTask belongs to one Lecture. -/
structure LectureTask where
  id : Nat
  name : String
  lecture : Nat
deriving Repr, DecidableEq

/-- Modelled from the spec: a TaskControl record belongs to one
LectureTask (the `task` foreign key) and carries a submission text. -/
structure TaskControl where
  id : Nat
  solution : String
  task : Nat
deriving Repr, DecidableEq

/-- Modelled from the spec: a TaskComments row belongs to one
TaskControl; the spec also records that one endpoint filters comments as
if they belonged directly to a LectureTask, so the model carries the
`task` key that filter reads. -/
structure TaskComments where
  id : Nat
  text : String
  taskcontrol : Nat
  task : Nat
deriving Repr, DecidableEq

/-- The database state: one table per entity. -/
structure DB where
  courses : List Course
  lectures : List Lecture
  lecturetasks : List LectureTask
  taskcontrols : List TaskControl
  taskcomments : List TaskComments
deriving Repr, DecidableEq

/-- The ORM join `users=u` on a course id: some course row has this id
and lists `u` as a member. -/
def courseHasUser (db : DB) (cid u : Nat) : Bool :=
  db.courses.any (fun c => c.id == cid && c.users.contains u)

/-- The ORM join `course__users=u` starting from a lecture id. -/
def lectureChainHasUser (db : DB) (lid u : Nat) : Bool :=
  db.lectures.any (fun l => l.id == lid && courseHasUser db l.course u)

/-- The ORM join `lecture__course__users=u` starting from a task id. -/
def taskChainHasUser (db : DB) (tid u : Nat) : Bool :=
  db.lecturetasks.any (fun t => t.id == tid && lectureChainHasUser db t.lecture u)

/-- The ORM join `task__lecture__course__users=u` starting from a
taskcontrol id. -/
def taskcontrolChainHasUser (db : DB) (tcid u : Nat) : Bool :=
  db.taskcontrols.any (fun tc => tc.id == tcid && taskChainHasUser db tc.task u)

/-- `CourseList.get_queryset`: `Course.objects.filter(users=self.request.user)`. -/
def CourseList.get_queryset (db : DB) (u : Nat) : List Course :=
  db.courses.filter (fun c => c.users.contains u)

/-- `CourseDetail.get_queryset`: `Course.objects.filter(users=self.request.user)`. -/
def CourseDetail.get_queryset (db : DB) (u : Nat) : List Course :=
  db.courses.filter (fun c => c.users.contains u)

/-- `LectureList.get_queryset`: `Lecture.objects.filter(course__users=self.request.user)`. -/
def LectureList.get_queryset (db : DB) (u : Nat) : List Lecture :=
  db.lectures.filter (fun l => courseHasUser db l.course u)

/-- `LectureDetail.get_queryset`: `Lecture.objects.filter(course__users=self.request.user)`. -/
def LectureDetail.get_queryset (db : DB) (u : Nat) : List Lecture :=
  db.lectures.filter (fun l => courseHasUser db l.course u)

/-- `TaskList.get_queryset`: `LectureTask.objects.filter(lecture__course__users=self.request.user)`. -/
def TaskList.get_queryset (db : DB) (u : Nat) : List LectureTask :=
  db.lecturetasks.filter (fun t => lectureChainHasUser db t.lecture u)

/-- `TaskDetail.get_queryset`: `LectureTask.objects.filter(lecture__course__users=self.request.user)`. -/
def TaskDetail.get_queryset (db : DB) (u : Nat) : List LectureTask :=
  db.lecturetasks.filter (fun t => lectureChainHasUser db t.lecture u)

/-- `TaskControlList.get_queryset`:
`TaskControl.objects.filter(task__lecture__course__users=self.request.user)`. -/
def TaskControlList.get_queryset (db : DB) (u : Nat) : List TaskControl :=
  db.taskcontrols.filter (fun tc => taskChainHasUser db tc.task u)

/-- `TaskControlDetail.get_queryset`:
`TaskControl.objects.filter(task__lecture__course__users=self.request.user)`. -/
def TaskControlDetail.get_queryset (db : DB) (u : Nat) : List TaskControl :=
  db.taskcontrols.filter (fun tc => taskChainHasUser db tc.task u)

/-- `TaskCommentsList.get_queryset`:
`TaskComments.objects.filter(taskcontrol__task__lecture__course__users=self.request.user)`. -/
def TaskCommentsList.get_queryset (db : DB) (u : Nat) : List TaskComments :=
  db.taskcomments.filter (fun cm => taskcontrolChainHasUser db cm.taskcontrol u)

/-- `TaskCommentsDetail.get_queryset`:
`TaskComments.objects.filter(task__lecture__course__users=self.request.user)` —
note the filter starts at the `task` key, not the `taskcontrol` key. -/
def TaskCommentsDetail.get_queryset (db : DB) (u : Nat) : List TaskComments :=
  db.taskcomments.filter (fun cm => taskChainHasUser db cm.task u)

/-- The ten view classes declared in `views.py`. -/
inductive ViewName where
  | CourseList | CourseDetail
  | LectureList | LectureDetail
  | TaskList | TaskDetail
  | TaskControlList | TaskControlDetail
  | TaskCommentsList | TaskCommentsDetail
deriving Repr, DecidableEq

/-- The serializer classes of the serializers module (modelled from the
spec: `serializers.py` is not under `src/`); the views reference only
the first four. -/
inductive Serializer where
  | CourseSerializer | LectureSerializer | TaskSerializer | TaskControlSerializer
  | TaskCommentsSerializer
deriving Repr, DecidableEq

/-- The permission classes referenced by `views.py`. -/
inductive Permission where
  | LecturerOrGetPermissions | AllowAny | IsAuthenticated | DjangoModelPermissions
deriving Repr, DecidableEq

/-- The request parsers relevant to `views.py`. -/
inductive Parser where
  | JSONParser | MultiPartParser
deriving Repr, DecidableEq

/-- The exception types the module deals with. -/
inductive PyException where
  | DatabaseError | Http404
deriving Repr, DecidableEq

/-- The `serializer_class` attribute of each view, as written in
`views.py`. -/
def serializer_class : ViewName → Serializer
  | .CourseList => .CourseSerializer
  | .CourseDetail => .CourseSerializer
  | .LectureList => .LectureSerializer
  | .LectureDetail => .LectureSerializer
  | .TaskList => .TaskSerializer
  | .TaskDetail => .TaskSerializer
  | .TaskControlList => .TaskControlSerializer
  | .TaskControlDetail => .TaskSerializer
  | .TaskCommentsList => .TaskControlSerializer
  | .TaskCommentsDetail => .TaskSerializer

/-- The serializer that belongs to the entity each view is named after. -/
def ownSerializer : ViewName → Serializer
  | .CourseList => .CourseSerializer
  | .CourseDetail => .CourseSerializer
  | .LectureList => .LectureSerializer
  | .LectureDetail => .LectureSerializer
  | .TaskList => .TaskSerializer
  | .TaskDetail => .TaskSerializer
  | .TaskControlList => .TaskControlSerializer
  | .TaskControlDetail => .TaskControlSerializer
  | .TaskCommentsList => .TaskCommentsSerializer
  | .TaskCommentsDetail => .TaskCommentsSerializer

/-- Modelled from the spec: a DRF generic view validates PUT request
bodies against its `serializer_class`. -/
def putSchema (v : ViewName) : Serializer := serializer_class v

/-- The `permission_classes` attribute of each view, as written in
`views.py`. -/
def permission_classes : ViewName → List Permission
  | .CourseList => [.LecturerOrGetPermissions]
  | .CourseDetail => [.LecturerOrGetPermissions]
  | .LectureList => [.LecturerOrGetPermissions]
  | .LectureDetail => [.LecturerOrGetPermissions]
  | .TaskList => [.LecturerOrGetPermissions]
  | .TaskDetail => [.LecturerOrGetPermissions]
  | .TaskControlList => [.AllowAny]
  | .TaskControlDetail => [.AllowAny]
  | .TaskCommentsList => [.AllowAny]
  | .TaskCommentsDetail => [.AllowAny]

/-- Modelled from the spec: the framework default parser accepts JSON;
only a view that sets `parser_classes` departs from it. -/
def defaultParserClasses : List Parser := [.JSONParser]

/-- The effective parser list of each view: only `LectureDetail` sets
`parser_classes = (MultiPartParser,)` in `views.py`; every other view
keeps the default. -/
def parser_classes : ViewName → List Parser
  | .LectureDetail => [.MultiPartParser]
  | _ => defaultParserClasses

/-- The HTTP verbs for which each view class defines a handler method in
`views.py`. -/
def handlers : ViewName → List String
  | .CourseList => ["get", "post"]
  | .CourseDetail => ["get", "put", "delete"]
  | .LectureList => ["get", "post"]
  | .LectureDetail => ["put", "delete"]
  | .TaskList => ["get", "post"]
  | .TaskDetail => ["put", "delete"]
  | .TaskControlList => ["get", "post"]
  | .TaskControlDetail => ["put", "delete"]
  | .TaskCommentsList => ["get", "post"]
  | .TaskCommentsDetail => ["put", "delete"]

/-- Modelled from the spec: the framework dispatches a request verb to
the view method of the same name; a verb without a handler yields HTTP
405 instead of the handler status. -/
def dispatchStatus (v : ViewName) (verb : String) (handlerStatus : Nat) : Nat :=
  if (handlers v).contains verb then handlerStatus else 405

/-- The relation path of each view's queryset filter keyword, split at
`__`, exactly as written in `views.py` (for example
`taskcontrol__task__lecture__course__users`). -/
def filterPath : ViewName → List String
  | .CourseList => ["users"]
  | .CourseDetail => ["users"]
  | .LectureList => ["course", "users"]
  | .LectureDetail => ["course", "users"]
  | .TaskList => ["lecture", "course", "users"]
  | .TaskDetail => ["lecture", "course", "users"]
  | .TaskControlList => ["task", "lecture", "course", "users"]
  | .TaskControlDetail => ["task", "lecture", "course", "users"]
  | .TaskCommentsList => ["taskcontrol", "task", "lecture", "course", "users"]
  | .TaskCommentsDetail => ["task", "lecture", "course", "users"]

/-- The exception types for which a view method installs an explicit
handler (a `try/except` branch): `views.py` contains none. -/
def handledExceptions : ViewName → String → List PyException :=
  fun _ _ => []

/-- The exception types imported at the top of `views.py`
(`DatabaseError` on line 2, `Http404` on line 3). -/
def moduleImports : List PyException := [.DatabaseError, .Http404]

/-- An HTTP response: status code, optional serialized body, and whether
the Location-style success headers are attached. -/
structure HttpResp (α : Type) where
  status : Nat
  body : Option α
  location : Bool
deriving Repr, DecidableEq

/-- The 400 validation-failure response. -/
def HttpResp.e400 {α : Type} : HttpResp α :=
  { status := 400, body := none, location := false }

/-- The 404 not-found response produced by queryset scoping. -/
def HttpResp.e404 {α : Type} : HttpResp α :=
  { status := 404, body := none, location := false }

/-- The 204 no-content response of a successful DELETE. -/
def HttpResp.e204 {α : Type} : HttpResp α :=
  { status := 204, body := none, location := false }

/-- Modelled from the spec: the ORM assigns a fresh primary key on save;
modelled as one more than the largest key in use. -/
def freshId (ids : List Nat) : Nat :=
  ids.foldl (fun a b => max a b) 0 + 1

/-- Request body for the Course serializer. -/
structure CoursePayload where
  name : String
deriving Repr, DecidableEq

/-- Request body for the Lecture serializer. -/
structure LecturePayload where
  name : String
  course : Nat
deriving Repr, DecidableEq

/-- Request body for the Task serializer. -/
structure TaskPayload where
  name : String
  lecture : Nat
deriving Repr, DecidableEq

/-- Request body for the TaskControl serializer. -/
structure TaskControlPayload where
  solution : String
  task : Nat
deriving Repr, DecidableEq

/-- Modelled from the spec: `serializers.py` is not under `src/`; the
serializer validates the request body against its schema, modelled as
requiring the text field to be non-empty. -/
def CourseSerializer.is_valid (p : CoursePayload) : Bool := !(p.name == "")

/-- Modelled from the spec: Lecture serializer validation. -/
def LectureSerializer.is_valid (p : LecturePayload) : Bool := !(p.name == "")

/-- Modelled from the spec: Task serializer validation. -/
def TaskSerializer.is_valid (p : TaskPayload) : Bool := !(p.name == "")

/-- Modelled from the spec: TaskControl serializer validation. -/
def TaskControlSerializer.is_valid (p : TaskControlPayload) : Bool := !(p.solution == "")

/-- `CourseList.post`: validates the body, saves the new course, then
`new_course.users.add(self.request.user)`, and answers 201 with the
representation and the success headers (the save itself is modelled from
the spec). -/
def CourseList.post (db : DB) (u : Nat) (p : CoursePayload) : DB × HttpResp Course :=
  if CourseSerializer.is_valid p then
    let nid := freshId (db.courses.map Course.id)
    let saved : Course := { id := nid, name := p.name, users := [] }
    let withMember : Course := { saved with users := [u] }
    ({ db with courses := db.courses ++ [withMember] },
     { status := 201, body := some withMember, location := true })
  else (db, HttpResp.e400)

/-- `LectureList.post` delegates to the generic create.  Modelled from
the spec: CreateModelMixin validates against the view's serializer,
saves the row, and answers 201 with success headers; it attaches no
course member. -/
def LectureList.post (db : DB) (p : LecturePayload) : DB × HttpResp Lecture :=
  if LectureSerializer.is_valid p then
    let nid := freshId (db.lectures.map Lecture.id)
    let saved : Lecture := { id := nid, name := p.name, course := p.course }
    ({ db with lectures := db.lectures ++ [saved] },
     { status := 201, body := some saved, location := true })
  else (db, HttpResp.e400)

/-- `TaskList.post` delegates to the generic create with the Task
serializer (save modelled from the spec). -/
def TaskList.post (db : DB) (p : TaskPayload) : DB × HttpResp LectureTask :=
  if TaskSerializer.is_valid p then
    let nid := freshId (db.lecturetasks.map LectureTask.id)
    let saved : LectureTask := { id := nid, name := p.name, lecture := p.lecture }
    ({ db with lecturetasks := db.lecturetasks ++ [saved] },
     { status := 201, body := some saved, location := true })
  else (db, HttpResp.e400)

/-- `TaskControlList.post` delegates to the generic create with the
TaskControl serializer (save modelled from the spec). -/
def TaskControlList.post (db : DB) (p : TaskControlPayload) : DB × HttpResp TaskControl :=
  if TaskControlSerializer.is_valid p then
    let nid := freshId (db.taskcontrols.map TaskControl.id)
    let saved : TaskControl := { id := nid, solution := p.solution, task := p.task }
    ({ db with taskcontrols := db.taskcontrols ++ [saved] },
     { status := 201, body := some saved, location := true })
  else (db, HttpResp.e400)

/-- `TaskCommentsList.post` delegates to the generic create, whose
serializer is this view's `serializer_class` — the TaskControl
serializer — so a valid body persists a TaskControl row, not a comment
(save modelled from the spec). -/
def TaskCommentsList.post (db : DB) (p : TaskControlPayload) : DB × HttpResp TaskControl :=
  if TaskControlSerializer.is_valid p then
    let nid := freshId (db.taskcontrols.map TaskControl.id)
    let saved : TaskControl := { id := nid, solution := p.solution, task := p.task }
    ({ db with taskcontrols := db.taskcontrols ++ [saved] },
     { status := 201, body := some saved, location := true })
  else (db, HttpResp.e400)

/-- `CourseDetail.get` delegates to the generic retrieve.  Modelled from
the spec: GET returns the one row of the ownership-filtered set that has
the requested primary key, else 404. -/
def CourseDetail.get (db : DB) (u : Nat) (pk : Nat) : HttpResp Course :=
  match (CourseDetail.get_queryset db u).find? (fun c => c.id == pk) with
  | some c => { status := 200, body := some c, location := false }
  | none => HttpResp.e404

/-- `CourseDetail.put` delegates to the generic update.  Modelled from
the spec: the target row is looked up by primary key inside the
ownership-filtered set (404 when absent, the same scoping as GET), then
the body is validated (400 on failure) and the row overwritten. -/
def CourseDetail.put (db : DB) (u : Nat) (pk : Nat) (p : CoursePayload) :
    DB × HttpResp Course :=
  match (CourseDetail.get_queryset db u).find? (fun c => c.id == pk) with
  | none => (db, HttpResp.e404)
  | some c =>
    if CourseSerializer.is_valid p then
      let c2 : Course := { c with name := p.name }
      ({ db with courses := db.courses.map (fun x => if x.id == pk then c2 else x) },
       { status := 200, body := some c2, location := false })
    else (db, HttpResp.e400)

/-- `LectureDetail.put` (generic update, modelled from the spec as for
`CourseDetail.put`). -/
def LectureDetail.put (db : DB) (u : Nat) (pk : Nat) (p : LecturePayload) :
    DB × HttpResp Lecture :=
  match (LectureDetail.get_queryset db u).find? (fun l => l.id == pk) with
  | none => (db, HttpResp.e404)
  | some l =>
    if LectureSerializer.is_valid p then
      let l2 : Lecture := { l with name := p.name, course := p.course }
      ({ db with lectures := db.lectures.map (fun x => if x.id == pk then l2 else x) },
       { status := 200, body := some l2, location := false })
    else (db, HttpResp.e400)

/-- `TaskDetail.put` (generic update, modelled from the spec as for
`CourseDetail.put`). -/
def TaskDetail.put (db : DB) (u : Nat) (pk : Nat) (p : TaskPayload) :
    DB × HttpResp LectureTask :=
  match (TaskDetail.get_queryset db u).find? (fun t => t.id == pk) with
  | none => (db, HttpResp.e404)
  | some t =>
    if TaskSerializer.is_valid p then
      let t2 : LectureTask := { t with name := p.name, lecture := p.lecture }
      ({ db with lecturetasks := db.lecturetasks.map (fun x => if x.id == pk then t2 else x) },
       { status := 200, body := some t2, location := false })
    else (db, HttpResp.e400)

/-- `TaskControlDetail.put` (generic update).  Its `serializer_class` is
the Task serializer, so the body is a Task payload validated by the Task
schema; the Task fields do not map onto a TaskControl row, so a valid
overwrite is modelled from the spec as leaving the stored fields in
place. -/
def TaskControlDetail.put (db : DB) (u : Nat) (pk : Nat) (p : TaskPayload) :
    DB × HttpResp TaskControl :=
  match (TaskControlDetail.get_queryset db u).find? (fun tc => tc.id == pk) with
  | none => (db, HttpResp.e404)
  | some tc =>
    if TaskSerializer.is_valid p then
      (db, { status := 200, body := some tc, location := false })
    else (db, HttpResp.e400)

/-- `TaskCommentsDetail.put` (generic update).  Its `serializer_class`
is also the Task serializer; modelled as for `TaskControlDetail.put`. -/
def TaskCommentsDetail.put (db : DB) (u : Nat) (pk : Nat) (p : TaskPayload) :
    DB × HttpResp TaskComments :=
  match (TaskCommentsDetail.get_queryset db u).find? (fun cm => cm.id == pk) with
  | none => (db, HttpResp.e404)
  | some cm =>
    if TaskSerializer.is_valid p then
      (db, { status := 200, body := some cm, location := false })
    else (db, HttpResp.e400)

/-- `CourseDetail.delete` delegates to the generic destroy.  Modelled
from the spec: the row is looked up by primary key inside the
ownership-filtered set (404 when absent), removed from the table, and
204 returned. -/
def CourseDetail.delete (db : DB) (u : Nat) (pk : Nat) : DB × HttpResp Course :=
  match (CourseDetail.get_queryset db u).find? (fun c => c.id == pk) with
  | some _ =>
    ({ db with courses := db.courses.filter (fun c => !(c.id == pk)) }, HttpResp.e204)
  | none => (db, HttpResp.e404)

/-- `LectureDetail.delete` (generic destroy, modelled from the spec). -/
def LectureDetail.delete (db : DB) (u : Nat) (pk : Nat) : DB × HttpResp Lecture :=
  match (LectureDetail.get_queryset db u).find? (fun l => l.id == pk) with
  | some _ =>
    ({ db with lectures := db.lectures.filter (fun l => !(l.id == pk)) }, HttpResp.e204)
  | none => (db, HttpResp.e404)

/-- `TaskDetail.delete` (generic destroy, modelled from the spec). -/
def TaskDetail.delete (db : DB) (u : Nat) (pk : Nat) : DB × HttpResp LectureTask :=
  match (TaskDetail.get_queryset db u).find? (fun t => t.id == pk) with
  | some _ =>
    ({ db with lecturetasks := db.lecturetasks.filter (fun t => !(t.id == pk)) },
     HttpResp.e204)
  | none => (db, HttpResp.e404)

/-- `TaskControlDetail.delete` (generic destroy, modelled from the spec). -/
def TaskControlDetail.delete (db : DB) (u : Nat) (pk : Nat) : DB × HttpResp TaskControl :=
  match (TaskControlDetail.get_queryset db u).find? (fun tc => tc.id == pk) with
  | some _ =>
    ({ db with taskcontrols := db.taskcontrols.filter (fun tc => !(tc.id == pk)) },
     HttpResp.e204)
  | none => (db, HttpResp.e404)

/-- `TaskCommentsDetail.delete` (generic destroy, modelled from the spec). -/
def TaskCommentsDetail.delete (db : DB) (u : Nat) (pk : Nat) : DB × HttpResp TaskComments :=
  match (TaskCommentsDetail.get_queryset db u).find? (fun cm => cm.id == pk) with
  | some _ =>
    ({ db with taskcomments := db.taskcomments.filter (fun cm => !(cm.id == pk)) },
     HttpResp.e204)
  | none => (db, HttpResp.e404)

/-- A small concrete database: one course owned by user 1 with one
lecture, one task, one taskcontrol and one comment hanging off it. -/
def exampleDB : DB :=
  { courses := [{ id := 1, name := "python", users := [1] }],
    lectures := [{ id := 1, name := "intro", course := 1 }],
    lecturetasks := [{ id := 1, name := "hw1", lecture := 1 }],
    taskcontrols := [{ id := 1, solution := "done", task := 1 }],
    taskcomments := [{ id := 1, text := "ok", taskcontrol := 1, task := 1 }] }

end LeverX

open LeverX

theorem foldl_max_le_init (l : List Nat) (a : Nat) :
    a ≤ l.foldl (fun x y => max x y) a := by
  induction l generalizing a with
  | nil => simp
  | cons b t ih => exact le_trans (le_max_left a b) (ih (max a b))

theorem le_foldl_max (l : List Nat) (x : Nat) (hx : x ∈ l) :
    ∀ a, x ≤ l.foldl (fun p q => max p q) a := by
  induction l with
  | nil => cases hx
  | cons b t ih =>
    intro a
    rcases List.mem_cons.mp hx with h | h
    · subst h
      exact le_trans (le_max_right a x) (foldl_max_le_init t (max a x))
    · exact ih h (max a b)

theorem freshId_not_mem (ids : List Nat) : freshId ids ∉ ids := by
  intro h
  have hle := le_foldl_max ids (freshId ids) h 0
  simp only [freshId] at hle
  omega

theorem find_some_of_exists {α : Type} (p : α → Bool) (l : List α)
    (h : ∃ x, x ∈ l ∧ p x = true) : ∃ y, l.find? p = some y := by
  cases hf : l.find? p with
  | some y => exact ⟨y, rfl⟩
  | none =>
    obtain ⟨x, hx, hp⟩ := h
    rw [List.find?_eq_none] at hf
    exact absurd hp (by simpa using hf x hx)

/-- C1: the Course, Lecture and Task list and detail querysets contain
exactly the rows of the corresponding table whose ownership chain
reaches a Course having the requesting user as a member; a row outside
this set is never returned. -/
theorem claim1_ownership_scoping : ∀ (db : LeverX.DB) (u : Nat),
    (∀ c : LeverX.Course,
      c ∈ LeverX.CourseList.get_queryset db u ↔
        c ∈ db.courses ∧ c.users.contains u = true) ∧
    (∀ c : LeverX.Course,
      c ∈ LeverX.CourseDetail.get_queryset db u ↔
        c ∈ db.courses ∧ c.users.contains u = true) ∧
    (∀ l : LeverX.Lecture,
      l ∈ LeverX.LectureList.get_queryset db u ↔
        l ∈ db.lectures ∧ LeverX.courseHasUser db l.course u = true) ∧
    (∀ l : LeverX.Lecture,
      l ∈ LeverX.LectureDetail.get_queryset db u ↔
        l ∈ db.lectures ∧ LeverX.courseHasUser db l.course u = true) ∧
    (∀ t : LeverX.LectureTask,
      t ∈ LeverX.TaskList.get_queryset db u ↔
        t ∈ db.lecturetasks ∧ LeverX.lectureChainHasUser db t.lecture u = true) ∧
    (∀ t : LeverX.LectureTask,
      t ∈ LeverX.TaskDetail.get_queryset db u ↔
        t ∈ db.lecturetasks ∧ LeverX.lectureChainHasUser db t.lecture u = true) := by
  intro db u
  refine ⟨?_, ?_, ?_, ?_, ?_, ?_⟩ <;>
    intro x <;>
    simp [LeverX.CourseList.get_queryset, LeverX.CourseDetail.get_queryset,
      LeverX.LectureList.get_queryset, LeverX.LectureDetail.get_queryset,
      LeverX.TaskList.get_queryset, LeverX.TaskDetail.get_queryset,
      List.mem_filter]

/-- C7 counterexample: it is not true that two TaskComments endpoints
filter on a direct `task` relation — the list endpoint's filter path
starts at `taskcontrol`, so exactly one of the two TaskComments
endpoints filters as if the comment belonged directly to a task. -/
theorem claim7_counterexample :
    filterPath ViewName.TaskCommentsList =
      ["taskcontrol", "task", "lecture", "course", "users"] ∧
    (filterPath ViewName.TaskCommentsList).head? ≠ some "task" ∧
    ([ViewName.TaskCommentsList, ViewName.TaskCommentsDetail].filter
      (fun v => (filterPath v).head? == some "task")).length = 1 := by
  decide

/-- C7 (amended): TaskComments belongs to one TaskControl; the
TaskComments list queryset filters through the full chain
comment → taskcontrol → task → lecture → course → users, while the
detail queryset — one of the two TaskComments endpoints — filters on a
direct `task` relation instead of the `taskcontrol` relation. -/
theorem claim7_comment_filter_chain :
    filterPath ViewName.TaskCommentsList =
      ["taskcontrol", "task", "lecture", "course", "users"] ∧
    filterPath ViewName.TaskCommentsDetail =
      ["task", "lecture", "course", "users"] ∧
    ([ViewName.TaskCommentsList, ViewName.TaskCommentsDetail].filter
      (fun v => (filterPath v).head? == some "task")).length = 1 ∧
    (∀ (db : DB) (u : Nat) (cm : TaskComments),
      cm ∈ TaskCommentsList.get_queryset db u ↔
        cm ∈ db.taskcomments ∧ taskcontrolChainHasUser db cm.taskcontrol u = true) ∧
    (∀ (db : DB) (u : Nat) (cm : TaskComments),
      cm ∈ TaskCommentsDetail.get_queryset db u ↔
        cm ∈ db.taskcomments ∧ taskChainHasUser db cm.task u = true) := by
  refine ⟨by decide, by decide, by decide, ?_, ?_⟩ <;>
    intro db u cm <;>
    simp [TaskCommentsList.get_queryset, TaskCommentsDetail.get_queryset,
      List.mem_filter]

/-- C8: every view parses JSON by default and only `LectureDetail`
overrides its parsers, with multipart form data. -/
theorem claim8_parsers :
    (∀ v : ViewName,
      parser_classes v =
        if v = ViewName.LectureDetail then [Parser.MultiPartParser]
        else defaultParserClasses) ∧
    Parser.MultiPartParser ∈ parser_classes ViewName.LectureDetail ∧
    defaultParserClasses = [Parser.JSONParser] := by
  refine ⟨?_, by decide, rfl⟩
  intro v
  cases v <;> decide

/-- C9: no view method installs an explicit handler for any exception —
in particular not for `DatabaseError` — even though the module imports
the database-error type, so a database error propagates out of the view
code. -/
theorem claim9_no_database_error_handler :
    (∀ (v : ViewName) (verb : String), handledExceptions v verb = []) ∧
    PyException.DatabaseError ∈ moduleImports :=
  ⟨fun _ _ => rfl, by decide⟩

/-- C10: `TaskControlDetail` and `TaskCommentsDetail` declare the Task
serializer and `TaskCommentsList` the TaskControl serializer — each a
different entity's schema than its own — so a PUT to either detail
endpoint is validated against the Task schema; the remaining seven
views use their own entity's serializer. -/
theorem claim10_serializer_mismatch :
    serializer_class ViewName.TaskControlDetail = Serializer.TaskSerializer ∧
    serializer_class ViewName.TaskCommentsDetail = Serializer.TaskSerializer ∧
    serializer_class ViewName.TaskCommentsList = Serializer.TaskControlSerializer ∧
    serializer_class ViewName.TaskControlDetail ≠ ownSerializer ViewName.TaskControlDetail ∧
    serializer_class ViewName.TaskCommentsDetail ≠ ownSerializer ViewName.TaskCommentsDetail ∧
    serializer_class ViewName.TaskCommentsList ≠ ownSerializer ViewName.TaskCommentsList ∧
    putSchema ViewName.TaskControlDetail = Serializer.TaskSerializer ∧
    putSchema ViewName.TaskCommentsDetail = Serializer.TaskSerializer ∧
    (∀ v : ViewName, v ≠ ViewName.TaskControlDetail →
      v ≠ ViewName.TaskCommentsDetail → v ≠ ViewName.TaskCommentsList →
      serializer_class v = ownSerializer v) := by
  refine ⟨rfl, rfl, rfl, by decide, by decide, by decide, rfl, rfl, ?_⟩
  intro v h1 h2 h3
  cases v <;> first | rfl | exact absurd rfl h1 | exact absurd rfl h2 | exact absurd rfl h3

/-- C10 witness: the Course list view keeps its own serializer. -/
theorem claim10_witness :
    serializer_class ViewName.CourseList = ownSerializer ViewName.CourseList :=
  claim10_serializer_mismatch.2.2.2.2.2.2.2.2 ViewName.CourseList
    (by decide) (by decide) (by decide)

/-- C3 counterexample: the TaskControl list queryset is restricted by
the caller's course membership — in the example database user 2 belongs
to no course and receives an empty TaskControl result set even though a
TaskControl row exists (and member user 1 receives it), so the claim
that the result sets are not restricted by membership is false. -/
theorem claim3_counterexample :
    permission_classes ViewName.TaskControlList = [Permission.AllowAny] ∧
    exampleDB.taskcontrols ≠ [] ∧
    TaskControlList.get_queryset exampleDB 2 = [] ∧
    TaskControlList.get_queryset exampleDB 1 = exampleDB.taskcontrols ∧
    TaskCommentsList.get_queryset exampleDB 2 = [] ∧
    TaskCommentsList.get_queryset exampleDB 1 = exampleDB.taskcomments := by
  decide

/-- C3 (amended): the four TaskControl/TaskComments views set AllowAny,
so every caller may invoke their operations, but their querysets still
filter the rows through the caller's course membership chain. -/
theorem claim3_allowany_but_scoped :
    (permission_classes ViewName.TaskControlList = [Permission.AllowAny] ∧
     permission_classes ViewName.TaskControlDetail = [Permission.AllowAny] ∧
     permission_classes ViewName.TaskCommentsList = [Permission.AllowAny] ∧
     permission_classes ViewName.TaskCommentsDetail = [Permission.AllowAny]) ∧
    (∀ (db : DB) (u : Nat) (tc : TaskControl),
      tc ∈ TaskControlList.get_queryset db u ↔
        tc ∈ db.taskcontrols ∧ taskChainHasUser db tc.task u = true) ∧
    (∀ (db : DB) (u : Nat) (tc : TaskControl),
      tc ∈ TaskControlDetail.get_queryset db u ↔
        tc ∈ db.taskcontrols ∧ taskChainHasUser db tc.task u = true) ∧
    (∀ (db : DB) (u : Nat) (cm : TaskComments),
      cm ∈ TaskCommentsList.get_queryset db u ↔
        cm ∈ db.taskcomments ∧ taskcontrolChainHasUser db cm.taskcontrol u = true) ∧
    (∀ (db : DB) (u : Nat) (cm : TaskComments),
      cm ∈ TaskCommentsDetail.get_queryset db u ↔
        cm ∈ db.taskcomments ∧ taskChainHasUser db cm.task u = true) := by
  refine ⟨⟨rfl, rfl, rfl, rfl⟩, ?_, ?_, ?_, ?_⟩ <;>
    intro db u x <;>
    simp [TaskControlList.get_queryset, TaskControlDetail.get_queryset,
      TaskCommentsList.get_queryset, TaskCommentsDetail.get_queryset,
      List.mem_filter]

theorem courseDetail_get_eq_e404 (db : DB) (u pk : Nat)
    (h : ∀ c ∈ CourseDetail.get_queryset db u, c.id ≠ pk) :
    CourseDetail.get db u pk = HttpResp.e404 := by
  have hn : (CourseDetail.get_queryset db u).find? (fun c => c.id == pk) = none :=
    List.find?_eq_none.mpr (fun x hx => by simpa using h x hx)
  unfold CourseDetail.get
  rw [hn]

/-- C2: a valid Course creation persists a new Course row, attaches the
requesting user as a member, and answers 201 with the created
representation and the success header; no other entity's create
operation touches course membership. -/
theorem claim2_course_create_adds_member :
    (∀ (db : DB) (u : Nat) (p : CoursePayload), CourseSerializer.is_valid p = true →
      ∃ c : Course,
        (CourseList.post db u p).2 = { status := 201, body := some c, location := true } ∧
        c.users.contains u = true ∧
        (CourseList.post db u p).1.courses = db.courses ++ [c] ∧
        c.id ∉ db.courses.map Course.id) ∧
    (∀ (db : DB) (p : LecturePayload), (LectureList.post db p).1.courses = db.courses) ∧
    (∀ (db : DB) (p : TaskPayload), (TaskList.post db p).1.courses = db.courses) ∧
    (∀ (db : DB) (p : TaskControlPayload),
      (TaskControlList.post db p).1.courses = db.courses) ∧
    (∀ (db : DB) (p : TaskControlPayload),
      (TaskCommentsList.post db p).1.courses = db.courses) := by
  refine ⟨?_, ?_, ?_, ?_, ?_⟩
  · intro db u p h
    refine ⟨⟨freshId (db.courses.map Course.id), p.name, [u]⟩, ?_, ?_, ?_, ?_⟩
    · simp [CourseList.post, h]
    · simp
    · simp [CourseList.post, h]
    · exact freshId_not_mem _
  · intro db p
    cases hv : LectureSerializer.is_valid p <;> simp [LectureList.post, hv]
  · intro db p
    cases hv : TaskSerializer.is_valid p <;> simp [TaskList.post, hv]
  · intro db p
    cases hv : TaskControlSerializer.is_valid p <;> simp [TaskControlList.post, hv]
  · intro db p
    cases hv : TaskControlSerializer.is_valid p <;> simp [TaskCommentsList.post, hv]

/-- C2 witness: creating a course with a valid body in the example
database persists it with user 1 as member. -/
theorem claim2_witness :
    ∃ c : Course,
      (CourseList.post exampleDB 1 ⟨"java"⟩).2 =
        { status := 201, body := some c, location := true } ∧
      c.users.contains 1 = true ∧
      (CourseList.post exampleDB 1 ⟨"java"⟩).1.courses = exampleDB.courses ++ [c] ∧
      c.id ∉ exampleDB.courses.map Course.id :=
  claim2_course_create_adds_member.1 exampleDB 1 ⟨"java"⟩ (by decide)

/-- C4 counterexample: `LectureDetail` is a Retrieve/Update/Delete
detail view yet defines no GET handler, so GET on it yields 405 — not
the row and not 404 — refuting the claim for every detail endpoint. -/
theorem claim4_counterexample :
    (handlers ViewName.LectureDetail).contains "get" = false ∧
    dispatchStatus ViewName.LectureDetail "get" 200 = 405 ∧
    dispatchStatus ViewName.LectureDetail "get" 404 = 405 ∧
    (handlers ViewName.CourseDetail).contains "get" = true := by
  decide

/-- C4 (amended): of the detail endpoints only `CourseDetail` exposes
GET; there GET returns the single row of the ownership-filtered
queryset with the requested primary key and 404 otherwise, and the 404
of a missing row is the very same response as the 404 of an
unauthorized row. -/
theorem claim4_detail_get_scoping :
    ∀ (db : DB) (u pk : Nat),
      ((∃ c, c ∈ CourseDetail.get_queryset db u ∧ c.id = pk) →
        ∃ c, CourseDetail.get db u pk =
            { status := 200, body := some c, location := false } ∧
          c ∈ CourseDetail.get_queryset db u ∧ c.id = pk) ∧
      ((∀ c ∈ CourseDetail.get_queryset db u, c.id ≠ pk) →
        CourseDetail.get db u pk = HttpResp.e404) ∧
      (∀ (db2 : DB) (u2 pk2 : Nat),
        (∀ c ∈ CourseDetail.get_queryset db u, c.id ≠ pk) →
        (∀ c ∈ CourseDetail.get_queryset db2 u2, c.id ≠ pk2) →
        CourseDetail.get db u pk = CourseDetail.get db2 u2 pk2) ∧
      ((handlers ViewName.LectureDetail).contains "get" = false ∧
       (handlers ViewName.TaskDetail).contains "get" = false ∧
       (handlers ViewName.TaskControlDetail).contains "get" = false ∧
       (handlers ViewName.TaskCommentsDetail).contains "get" = false ∧
       (handlers ViewName.CourseDetail).contains "get" = true) := by
  intro db u pk
  refine ⟨?_, courseDetail_get_eq_e404 db u pk, ?_, by decide⟩
  · intro h
    obtain ⟨y, hy⟩ := find_some_of_exists (fun c => c.id == pk)
      (CourseDetail.get_queryset db u)
      (by obtain ⟨c, hc, hid⟩ := h; exact ⟨c, hc, by simp [hid]⟩)
    refine ⟨y, ?_, List.mem_of_find?_eq_some hy, ?_⟩
    · unfold CourseDetail.get
      rw [hy]
    · have hp := List.find?_some hy
      simpa using hp
  · intro db2 u2 pk2 h1 h2
    rw [courseDetail_get_eq_e404 db u pk h1, courseDetail_get_eq_e404 db2 u2 pk2 h2]

/-- C4 witness: in the example database user 1 retrieves course 1 with
200; course 999 is missing and course 1 is unauthorized for user 2, and
the two 404 responses coincide. -/
theorem claim4_witness :
    (∃ c, CourseDetail.get exampleDB 1 1 =
        { status := 200, body := some c, location := false } ∧
      c ∈ CourseDetail.get_queryset exampleDB 1 ∧ c.id = 1) ∧
    CourseDetail.get exampleDB 1 999 = HttpResp.e404 ∧
    CourseDetail.get exampleDB 1 999 = CourseDetail.get exampleDB 2 1 :=
  ⟨(claim4_detail_get_scoping exampleDB 1 1).1
      ⟨⟨1, "python", [1]⟩, by decide, by decide⟩,
   (claim4_detail_get_scoping exampleDB 1 999).2.1 (by decide),
   (claim4_detail_get_scoping exampleDB 1 999).2.2.1 exampleDB 2 1
      (by decide) (by decide)⟩

/-- C5 counterexample: an update request with an invalid payload aimed
at a primary key outside the ownership-filtered set answers 404, not
400 — the row lookup precedes validation — refuting "always 400"
(stored state is still unchanged). -/
theorem claim5_counterexample :
    CourseSerializer.is_valid ⟨""⟩ = false ∧
    CourseDetail.put exampleDB 1 999 ⟨""⟩ = (exampleDB, HttpResp.e404) ∧
    (HttpResp.e404 : HttpResp Course).status ≠ 400 := by
  decide

/-- C5 (amended): a create request with an invalid payload persists
nothing and answers 400; an update request with an invalid payload
leaves the stored state unchanged and answers 400 when its target row
is inside the ownership-filtered set (404 when it is not). -/
theorem claim5_invalid_payloads :
    ∀ (db : DB) (u pk : Nat) (pc : CoursePayload) (pl : LecturePayload)
      (pt : TaskPayload) (ptc : TaskControlPayload),
      (CourseSerializer.is_valid pc = false →
        CourseList.post db u pc = (db, HttpResp.e400)) ∧
      (LectureSerializer.is_valid pl = false →
        LectureList.post db pl = (db, HttpResp.e400)) ∧
      (TaskSerializer.is_valid pt = false →
        TaskList.post db pt = (db, HttpResp.e400)) ∧
      (TaskControlSerializer.is_valid ptc = false →
        TaskControlList.post db ptc = (db, HttpResp.e400)) ∧
      (TaskControlSerializer.is_valid ptc = false →
        TaskCommentsList.post db ptc = (db, HttpResp.e400)) ∧
      (CourseSerializer.is_valid pc = false →
        (CourseDetail.put db u pk pc).1 = db ∧
        ((∃ c, c ∈ CourseDetail.get_queryset db u ∧ c.id = pk) →
          (CourseDetail.put db u pk pc).2 = HttpResp.e400) ∧
        ((∀ c ∈ CourseDetail.get_queryset db u, c.id ≠ pk) →
          (CourseDetail.put db u pk pc).2 = HttpResp.e404)) ∧
      (LectureSerializer.is_valid pl = false →
        (LectureDetail.put db u pk pl).1 = db ∧
        ((∃ l, l ∈ LectureDetail.get_queryset db u ∧ l.id = pk) →
          (LectureDetail.put db u pk pl).2 = HttpResp.e400) ∧
        ((∀ l ∈ LectureDetail.get_queryset db u, l.id ≠ pk) →
          (LectureDetail.put db u pk pl).2 = HttpResp.e404)) ∧
      (TaskSerializer.is_valid pt = false →
        (TaskDetail.put db u pk pt).1 = db ∧
        ((∃ t, t ∈ TaskDetail.get_queryset db u ∧ t.id = pk) →
          (TaskDetail.put db u pk pt).2 = HttpResp.e400) ∧
        ((∀ t ∈ TaskDetail.get_queryset db u, t.id ≠ pk) →
          (TaskDetail.put db u pk pt).2 = HttpResp.e404)) ∧
      (TaskSerializer.is_valid pt = false →
        (TaskControlDetail.put db u pk pt).1 = db ∧
        ((∃ tc, tc ∈ TaskControlDetail.get_queryset db u ∧ tc.id = pk) →
          (TaskControlDetail.put db u pk pt).2 = HttpResp.e400) ∧
        ((∀ tc ∈ TaskControlDetail.get_queryset db u, tc.id ≠ pk) →
          (TaskControlDetail.put db u pk pt).2 = HttpResp.e404)) ∧
      (TaskSerializer.is_valid pt = false →
        (TaskCommentsDetail.put db u pk pt).1 = db ∧
        ((∃ cm, cm ∈ TaskCommentsDetail.get_queryset db u ∧ cm.id = pk) →
          (TaskCommentsDetail.put db u pk pt).2 = HttpResp.e400) ∧
        ((∀ cm ∈ TaskCommentsDetail.get_queryset db u, cm.id ≠ pk) →
          (TaskCommentsDetail.put db u pk pt).2 = HttpResp.e404)) := by
  intro db u pk pc pl pt ptc
  refine ⟨?_, ?_, ?_, ?_, ?_, ?_, ?_, ?_, ?_, ?_⟩
  · intro h; simp [CourseList.post, h]
  · intro h; simp [LectureList.post, h]
  · intro h; simp [TaskList.post, h]
  · intro h; simp [TaskControlList.post, h]
  · intro h; simp [TaskCommentsList.post, h]
  · intro h
    refine ⟨?_, ?_, ?_⟩
    · cases hf : (CourseDetail.get_queryset db u).find? (fun c => c.id == pk) with
      | none => unfold CourseDetail.put; rw [hf]
      | some c => unfold CourseDetail.put; rw [hf]; simp [h]
    · intro hex
      obtain ⟨y, hy⟩ := find_some_of_exists (fun c => c.id == pk)
        (CourseDetail.get_queryset db u)
        (by obtain ⟨c, hc, hid⟩ := hex; exact ⟨c, hc, by simp [hid]⟩)
      unfold CourseDetail.put
      rw [hy]
      simp [h]
    · intro hnone
      have hn : (CourseDetail.get_queryset db u).find? (fun c => c.id == pk) = none :=
        List.find?_eq_none.mpr (fun x hx => by simpa using hnone x hx)
      unfold CourseDetail.put
      rw [hn]
  · intro h
    refine ⟨?_, ?_, ?_⟩
    · cases hf : (LectureDetail.get_queryset db u).find? (fun l => l.id == pk) with
      | none => unfold LectureDetail.put; rw [hf]
      | some l => unfold LectureDetail.put; rw [hf]; simp [h]
    · intro hex
      obtain ⟨y, hy⟩ := find_some_of_exists (fun l => l.id == pk)
        (LectureDetail.get_queryset db u)
        (by obtain ⟨l, hl, hid⟩ := hex; exact ⟨l, hl, by simp [hid]⟩)
      unfold LectureDetail.put
      rw [hy]
      simp [h]
    · intro hnone
      have hn : (LectureDetail.get_queryset db u).find? (fun l => l.id == pk) = none :=
        List.find?_eq_none.mpr (fun x hx => by simpa using hnone x hx)
      unfold LectureDetail.put
      rw [hn]
  · intro h
    refine ⟨?_, ?_, ?_⟩
    · cases hf : (TaskDetail.get_queryset db u).find? (fun t => t.id == pk) with
      | none => unfold TaskDetail.put; rw [hf]
      | some t => unfold TaskDetail.put; rw [hf]; simp [h]
    · intro hex
      obtain ⟨y, hy⟩ := find_some_of_exists (fun t => t.id == pk)
        (TaskDetail.get_queryset db u)
        (by obtain ⟨t, ht, hid⟩ := hex; exact ⟨t, ht, by simp [hid]⟩)
      unfold TaskDetail.put
      rw [hy]
      simp [h]
    · intro hnone
      have hn : (TaskDetail.get_queryset db u).find? (fun t => t.id == pk) = none :=
        List.find?_eq_none.mpr (fun x hx => by simpa using hnone x hx)
      unfold TaskDetail.put
      rw [hn]
  · intro h
    refine ⟨?_, ?_, ?_⟩
    · cases hf : (TaskControlDetail.get_queryset db u).find? (fun tc => tc.id == pk) with
      | none => unfold TaskControlDetail.put; rw [hf]
      | some tc => unfold TaskControlDetail.put; rw [hf]; simp [h]
    · intro hex
      obtain ⟨y, hy⟩ := find_some_of_exists (fun tc => tc.id == pk)
        (TaskControlDetail.get_queryset db u)
        (by obtain ⟨tc, htc, hid⟩ := hex; exact ⟨tc, htc, by simp [hid]⟩)
      unfold TaskControlDetail.put
      rw [hy]
      simp [h]
    · intro hnone
      have hn : (TaskControlDetail.get_queryset db u).find? (fun tc => tc.id == pk) = none :=
        List.find?_eq_none.mpr (fun x hx => by simpa using hnone x hx)
      unfold TaskControlDetail.put
      rw [hn]
  · intro h
    refine ⟨?_, ?_, ?_⟩
    · cases hf : (TaskCommentsDetail.get_queryset db u).find? (fun cm => cm.id == pk) with
      | none => unfold TaskCommentsDetail.put; rw [hf]
      | some cm => unfold TaskCommentsDetail.put; rw [hf]; simp [h]
    · intro hex
      obtain ⟨y, hy⟩ := find_some_of_exists (fun cm => cm.id == pk)
        (TaskCommentsDetail.get_queryset db u)
        (by obtain ⟨cm, hcm, hid⟩ := hex; exact ⟨cm, hcm, by simp [hid]⟩)
      unfold TaskCommentsDetail.put
      rw [hy]
      simp [h]
    · intro hnone
      have hn : (TaskCommentsDetail.get_queryset db u).find? (fun cm => cm.id == pk) = none :=
        List.find?_eq_none.mpr (fun x hx => by simpa using hnone x hx)
      unfold TaskCommentsDetail.put
      rw [hn]

/-- C5 witness: with an empty name the Course create answers 400 and
persists nothing, and the Course update of row 1 answers 400 and leaves
the database unchanged. -/
theorem claim5_witness :
    CourseList.post exampleDB 1 ⟨""⟩ = (exampleDB, HttpResp.e400) ∧
    (CourseDetail.put exampleDB 1 1 ⟨""⟩).1 = exampleDB ∧
    (CourseDetail.put exampleDB 1 1 ⟨""⟩).2 = HttpResp.e400 ∧
    (CourseDetail.put exampleDB 1 999 ⟨""⟩).2 = HttpResp.e404 :=
  ⟨(claim5_invalid_payloads exampleDB 1 1 ⟨""⟩ ⟨"", 1⟩ ⟨"", 1⟩ ⟨"", 1⟩).1 (by decide),
   ((claim5_invalid_payloads exampleDB 1 1 ⟨""⟩ ⟨"", 1⟩ ⟨"", 1⟩ ⟨"", 1⟩).2.2.2.2.2.1
      (by decide)).1,
   ((claim5_invalid_payloads exampleDB 1 1 ⟨""⟩ ⟨"", 1⟩ ⟨"", 1⟩ ⟨"", 1⟩).2.2.2.2.2.1
      (by decide)).2.1 ⟨⟨1, "python", [1]⟩, by decide, by decide⟩,
   ((claim5_invalid_payloads exampleDB 1 999 ⟨""⟩ ⟨"", 1⟩ ⟨"", 1⟩ ⟨"", 1⟩).2.2.2.2.2.1
      (by decide)).2.2 (by decide)⟩

/-- C6: for each of the five resources, a DELETE aimed at a row inside
the ownership-filtered set answers 204 and removes the row, so the
same user's subsequent list result contains no row with that primary
key. -/
theorem claim6_delete_removes_from_lists :
    ∀ (db : DB) (u pk : Nat),
      ((∃ c, c ∈ CourseDetail.get_queryset db u ∧ c.id = pk) →
        (CourseDetail.delete db u pk).2 = HttpResp.e204 ∧
        ∀ y ∈ CourseList.get_queryset (CourseDetail.delete db u pk).1 u, y.id ≠ pk) ∧
      ((∃ l, l ∈ LectureDetail.get_queryset db u ∧ l.id = pk) →
        (LectureDetail.delete db u pk).2 = HttpResp.e204 ∧
        ∀ y ∈ LectureList.get_queryset (LectureDetail.delete db u pk).1 u, y.id ≠ pk) ∧
      ((∃ t, t ∈ TaskDetail.get_queryset db u ∧ t.id = pk) →
        (TaskDetail.delete db u pk).2 = HttpResp.e204 ∧
        ∀ y ∈ TaskList.get_queryset (TaskDetail.delete db u pk).1 u, y.id ≠ pk) ∧
      ((∃ tc, tc ∈ TaskControlDetail.get_queryset db u ∧ tc.id = pk) →
        (TaskControlDetail.delete db u pk).2 = HttpResp.e204 ∧
        ∀ y ∈ TaskControlList.get_queryset (TaskControlDetail.delete db u pk).1 u,
          y.id ≠ pk) ∧
      ((∃ cm, cm ∈ TaskCommentsDetail.get_queryset db u ∧ cm.id = pk) →
        (TaskCommentsDetail.delete db u pk).2 = HttpResp.e204 ∧
        ∀ y ∈ TaskCommentsList.get_queryset (TaskCommentsDetail.delete db u pk).1 u,
          y.id ≠ pk) := by
  intro db u pk
  refine ⟨?_, ?_, ?_, ?_, ?_⟩
  · intro h
    obtain ⟨y, hy⟩ := find_some_of_exists (fun c => c.id == pk)
      (CourseDetail.get_queryset db u)
      (by obtain ⟨c, hc, hid⟩ := h; exact ⟨c, hc, by simp [hid]⟩)
    constructor
    · unfold CourseDetail.delete; rw [hy]
    · intro z hz
      unfold CourseDetail.delete at hz
      rw [hy] at hz
      simp [CourseList.get_queryset, List.mem_filter] at hz
      tauto
  · intro h
    obtain ⟨y, hy⟩ := find_some_of_exists (fun l => l.id == pk)
      (LectureDetail.get_queryset db u)
      (by obtain ⟨l, hl, hid⟩ := h; exact ⟨l, hl, by simp [hid]⟩)
    constructor
    · unfold LectureDetail.delete; rw [hy]
    · intro z hz
      unfold LectureDetail.delete at hz
      rw [hy] at hz
      simp [LectureList.get_queryset, List.mem_filter] at hz
      tauto
  · intro h
    obtain ⟨y, hy⟩ := find_some_of_exists (fun t => t.id == pk)
      (TaskDetail.get_queryset db u)
      (by obtain ⟨t, ht, hid⟩ := h; exact ⟨t, ht, by simp [hid]⟩)
    constructor
    · unfold TaskDetail.delete; rw [hy]
    · intro z hz
      unfold TaskDetail.delete at hz
      rw [hy] at hz
      simp [TaskList.get_queryset, List.mem_filter] at hz
      tauto
  · intro h
    obtain ⟨y, hy⟩ := find_some_of_exists (fun tc => tc.id == pk)
      (TaskControlDetail.get_queryset db u)
      (by obtain ⟨tc, htc, hid⟩ := h; exact ⟨tc, htc, by simp [hid]⟩)
    constructor
    · unfold TaskControlDetail.delete; rw [hy]
    · intro z hz
      unfold TaskControlDetail.delete at hz
      rw [hy] at hz
      simp [TaskControlList.get_queryset, List.mem_filter] at hz
      tauto
  · intro h
    obtain ⟨y, hy⟩ := find_some_of_exists (fun cm => cm.id == pk)
      (TaskCommentsDetail.get_queryset db u)
      (by obtain ⟨cm, hcm, hid⟩ := h; exact ⟨cm, hcm, by simp [hid]⟩)
    constructor
    · unfold TaskCommentsDetail.delete; rw [hy]
    · intro z hz
      unfold TaskCommentsDetail.delete at hz
      rw [hy] at hz
      simp [TaskCommentsList.get_queryset, List.mem_filter] at hz
      tauto

/-- C6 witness: deleting row 1 of each resource as user 1 in the
example database answers 204 and no subsequent list of that user
contains a row with primary key 1. -/
theorem claim6_witness :
    ((CourseDetail.delete exampleDB 1 1).2 = HttpResp.e204 ∧
      ∀ y ∈ CourseList.get_queryset (CourseDetail.delete exampleDB 1 1).1 1, y.id ≠ 1) ∧
    ((LectureDetail.delete exampleDB 1 1).2 = HttpResp.e204 ∧
      ∀ y ∈ LectureList.get_queryset (LectureDetail.delete exampleDB 1 1).1 1, y.id ≠ 1) ∧
    ((TaskDetail.delete exampleDB 1 1).2 = HttpResp.e204 ∧
      ∀ y ∈ TaskList.get_queryset (TaskDetail.delete exampleDB 1 1).1 1, y.id ≠ 1) ∧
    ((TaskControlDetail.delete exampleDB 1 1).2 = HttpResp.e204 ∧
      ∀ y ∈ TaskControlList.get_queryset (TaskControlDetail.delete exampleDB 1 1).1 1,
        y.id ≠ 1) ∧
    ((TaskCommentsDetail.delete exampleDB 1 1).2 = HttpResp.e204 ∧
      ∀ y ∈ TaskCommentsList.get_queryset (TaskCommentsDetail.delete exampleDB 1 1).1 1,
        y.id ≠ 1) :=
  ⟨(claim6_delete_removes_from_lists exampleDB 1 1).1
      ⟨⟨1, "python", [1]⟩, by decide, by decide⟩,
   (claim6_delete_removes_from_lists exampleDB 1 1).2.1
      ⟨⟨1, "intro", 1⟩, by decide, by decide⟩,
   (claim6_delete_removes_from_lists exampleDB 1 1).2.2.1
      ⟨⟨1, "hw1", 1⟩, by decide, by decide⟩,
   (claim6_delete_removes_from_lists exampleDB 1 1).2.2.2.1
      ⟨⟨1, "done", 1⟩, by decide, by decide⟩,
   (claim6_delete_removes_from_lists exampleDB 1 1).2.2.2.2
      ⟨⟨1, "ok", 1, 1⟩, by decide, by decide⟩⟩
